import Mathlib

/-!
Verification development for the Database facade of the pyArango client
(src/pyArango/database.py).  The Python code is shallowly embedded: every
function below is a direct translation of the corresponding method of the
class Database (or DBHandle), with the remote server represented by the
decoded response it would return, and the mutable registries
(self.collections, self.graphs) represented by association lists passed
in and returned explicitly.  External collaborators that live outside
src/ (the collection module COL, the graph module GR, the consts module)
are modelled from their interface contract as stated in spec.md; every
such definition carries a doc comment starting with "Modelled from the
spec:".
-/

set_option autoImplicit false

namespace PyArango

/-- Scalar JSON values, enough for the property dictionaries the Database
facade builds and sends.  Nested objects never influence the control flow
of database.py. -/
inductive JVal where
  | null
  | bool (b : Bool)
  | num (n : Int)
  | str (s : String)
  deriving DecidableEq, Repr

/-- A Python dict with string keys, as an association list in insertion
order (the order json.dumps serialises). -/
abbrev Props := List (String × JVal)

/-- Python dict lookup d[k]: value at the first (hence unique) occurrence
of the key. -/
def dlookup {α : Type} : List (String × α) → String → Option α
  | [], _ => none
  | (k', v') :: rest, k => if k' = k then some v' else dlookup rest k

/-- Python dict assignment d[k] = v: replaces the value in place when the
key is present, appends the pair otherwise. -/
def dinsert {α : Type} : List (String × α) → String → α → List (String × α)
  | [], k, v => [(k, v)]
  | (k', v') :: rest, k, v =>
      if k' = k then (k, v) :: rest else (k', v') :: dinsert rest k v

/-- Modelled from the spec: the wire enum for collection types sent in the
"type" field, section 6 of spec.md ("2=edge,3=document per the wire
enum"); the numeric constants live in consts.py, which is not under
src/. -/
def COLLECTION_EDGE_TYPE : Int := 2

/-- Modelled from the spec: the document side of the wire enum for
collection types (see COLLECTION_EDGE_TYPE). -/
def COLLECTION_DOCUMENT_TYPE : Int := 3

/-- Modelled from the spec: a registered collection type as seen through
the interface of the collection module COL (not under src/): a name, an
edge-versus-document nature (issubclass of Edges), and the optional
declared default properties dictionary named in database.py as
colClass.properties with a leading underscore. -/
structure CollectionClass where
  name : String
  isEdge : Bool
  hasProperties : Bool
  properties : Props
  deriving DecidableEq, Repr

/-- Modelled from the spec: COL.getCollectionClass resolves a registered
collection type by name; the KeyError raised on an unknown name is
modelled as none.  The registry itself is passed as a list. -/
def getCollectionClass (reg : List CollectionClass) (className : String) :
    Option CollectionClass :=
  reg.find? (fun c => c.name == className)

/-- One item of the result array returned by GET /collection, keeping the
fields database.py reads: name, isSystem and type. -/
structure ColData where
  name : String
  isSystem : Bool
  type : Int
  deriving DecidableEq, Repr

/-- A collection handle stored in the collections registry, tagged with
the constructor reloadCollections or createCollection chose for it
(the internals of the Collection classes are outside this spec). -/
inductive ColObj where
  | systemCollection (data : ColData)
  | registeredClass (className : String) (data : ColData)
  | edgesGeneric (data : ColData)
  | collectionGeneric (data : ColData)
  | created (className : String) (respName : String)
  deriving DecidableEq, Repr

/-- The decoded response of GET /collection together with its HTTP
status. -/
structure ListResp where
  status : Nat
  result : List ColData
  errorMessage : String
  deriving DecidableEq, Repr

/-- The classification of one listed collection, translated from the body
of the loop of Database.reloadCollections (database.py lines 55-70):
system collections first, then a registered class looked up by name, then
the fallback on the wire type, with the unknown-type branch degrading to
the generic document collection and printing a warning (the Bool
component records that the warning was printed). -/
def classifyCol (reg : List CollectionClass) (d : ColData) : ColObj × Bool :=
  if d.isSystem then (ColObj.systemCollection d, false)
  else
    match getCollectionClass reg d.name with
    | some _ => (ColObj.registeredClass d.name d, false)
    | none =>
        if d.type = COLLECTION_EDGE_TYPE then (ColObj.edgesGeneric d, false)
        else if d.type = COLLECTION_DOCUMENT_TYPE then (ColObj.collectionGeneric d, false)
        else (ColObj.collectionGeneric d, true)

/-- One iteration of the reloadCollections loop: register the classified
handle under the listed name and record a possible warning. -/
def reloadStep (reg : List CollectionClass)
    (acc : List (String × ColObj) × List String) (d : ColData) :
    List (String × ColObj) × List String :=
  let c := classifyCol reg d
  (dinsert acc.1 d.name c.1, if c.2 then acc.2 ++ [d.name] else acc.2)

/-- Database.reloadCollections (database.py lines 48-74): on status 200
the registry is rebuilt from scratch out of the result array; on any
other status an UpdateError is raised with the errorMessage of the
payload and the registry is left as it was.  Returns (outcome, new
registry, warnings printed). -/
def reloadCollections (reg : List CollectionClass)
    (old : List (String × ColObj)) (resp : ListResp) :
    Except String Unit × List (String × ColObj) × List String :=
  if resp.status = 200 then
    let res := resp.result.foldl (reloadStep reg) ([], [])
    (Except.ok (), res.1, res.2)
  else
    (Except.error resp.errorMessage, old, [])

/-- One item of the graphs array returned by GET /gharial; database.py
reads only its "_key" field. -/
structure GraphData where
  key : String
  deriving DecidableEq, Repr

/-- An edge definition of a registered graph class, as consumed by
Database.createGraph: the edge collection name and the from/to endpoint
collection names. -/
structure EdgeDefinition where
  edgesCollection : String
  fromCollections : List String
  toCollections : List String
  deriving DecidableEq, Repr

/-- Modelled from the spec: a registered graph type as seen through the
interface of the graph module GR (not under src/): its declared edge
definitions and orphaned collections. -/
structure GraphClass where
  edgeDefinitions : List EdgeDefinition
  orphanedCollections : List String
  deriving DecidableEq, Repr

/-- Modelled from the spec: GR.getGraphClass resolves a registered graph
type by name; KeyError on an unknown name is modelled as none. -/
def getGraphClass (gReg : List (String × GraphClass)) (name : String) :
    Option GraphClass :=
  dlookup gReg name

/-- A graph handle stored in the graphs registry, tagged with the
constructor reloadGraphs or createGraph chose for it. -/
inductive GraphObj where
  | registeredGraph (className : String) (data : GraphData)
  | genericGraph (data : GraphData)
  | createdGraph (className : String)
  deriving DecidableEq, Repr

/-- The decoded response of GET /gharial together with its HTTP
status. -/
structure GraphsResp where
  status : Nat
  graphs : List GraphData
  errorMessage : String
  deriving DecidableEq, Repr

/-- Database.reloadGraphs (database.py lines 76-88): on status 200 the
graphs registry is rebuilt from the graphs array, each entry instantiated
by a name-keyed class lookup with fallback to the generic Graph; on any
other status an UpdateError is raised and the registry is left as it
was. -/
def reloadGraphs (gReg : List (String × GraphClass))
    (old : List (String × GraphObj)) (resp : GraphsResp) :
    Except String Unit × List (String × GraphObj) :=
  if resp.status = 200 then
    let step := fun (acc : List (String × GraphObj)) (d : GraphData) =>
      match getGraphClass gReg d.key with
      | some _ => dinsert acc d.key (GraphObj.registeredGraph d.key d)
      | none => dinsert acc d.key (GraphObj.genericGraph d)
    (Except.ok (), resp.graphs.foldl step [])
  else
    (Except.error resp.errorMessage, old)

/-- The two registries held by a Database instance. -/
structure DBState where
  collections : List (String × ColObj)
  graphs : List (String × GraphObj)
  deriving DecidableEq, Repr

/-- Database.reload (database.py lines 90-93): reloadCollections first,
then reloadGraphs; an exception from the first step propagates before the
second step runs. -/
def reload (reg : List CollectionClass) (gReg : List (String × GraphClass))
    (st : DBState) (cResp : ListResp) (gResp : GraphsResp) :
    Except String Unit × DBState × List String :=
  match reloadCollections reg st.collections cResp with
  | (Except.error e, m, w) => (Except.error e, ⟨m, st.graphs⟩, w)
  | (Except.ok _, m, w) =>
      match reloadGraphs gReg st.graphs gResp with
      | (Except.error e, g) => (Except.error e, ⟨m, g⟩, w)
      | (Except.ok _, g) => (Except.ok (), ⟨m, g⟩, w)

/-- The errors Database.createCollection can raise: the KeyError of the
class lookup, the ValueError of the missing generic name, the local
CreationError on a duplicate name, and the CreationError built from a
failed server response. -/
inductive CCErr where
  | keyError
  | valueError (msg : String)
  | creationErrorLocal (msg : String)
  | creationErrorServer (msg : String)
  deriving DecidableEq, Repr

/-- The decoded response of POST /collection together with its HTTP
status: the server error flag, the errorMessage used on failure, and the
name of the created collection read back on success. -/
structure ServerResp where
  status : Nat
  error : Bool
  errorMessage : String
  name : String
  deriving DecidableEq, Repr

/-- The pre-network part of Database.createCollection (database.py lines
103-125) for an already-resolved class: chooses the caller properties
when any were supplied and the declared defaults of the class otherwise,
forces or requires the name, rejects a duplicate name against the local
registry, sets the wire type field, and returns the dictionary that will
be serialised into the POST body. -/
def createCollectionPayloadOfClass (dbName : String)
    (cols : List (String × ColObj)) (className : String)
    (colClass : CollectionClass) (caller : Props) : Except CCErr Props :=
  let props0 :=
    if 0 < caller.length then caller
    else if colClass.hasProperties then colClass.properties else []
  let named : Except CCErr Props :=
    if className ≠ "Collection" ∧ className ≠ "Edges" then
      Except.ok (dinsert props0 "name" (JVal.str className))
    else if (dlookup props0 "name").isSome then Except.ok props0
    else Except.error (CCErr.valueError
      "a 'name' argument mush be supplied if you want to create a generic collection")
  match named with
  | Except.error e => Except.error e
  | Except.ok props1 =>
      let finish : Except CCErr Props :=
        Except.ok (dinsert props1 "type"
          (JVal.num (if colClass.isEdge then COLLECTION_EDGE_TYPE
                     else COLLECTION_DOCUMENT_TYPE)))
      match dlookup props1 "name" with
      | some (JVal.str s) =>
          if (dlookup cols s).isSome then
            Except.error (CCErr.creationErrorLocal
              ("Database " ++ dbName ++ " already has a collection named " ++ s))
          else finish
      | _ => finish

/-- The pre-network part of Database.createCollection starting from the
class-name lookup of line 101. -/
def createCollectionPayload (reg : List CollectionClass) (dbName : String)
    (cols : List (String × ColObj)) (className : String) (caller : Props) :
    Except CCErr Props :=
  match getCollectionClass reg className with
  | none => Except.error CCErr.keyError
  | some c => createCollectionPayloadOfClass dbName cols className c caller

/-- The full outcome of a createCollection call: the raised error or the
name of the registered handle, the collections registry afterwards, the
number of POST requests sent, and the payload of the POST when one was
sent. -/
structure CCOutcome where
  result : Except CCErr String
  collections : List (String × ColObj)
  posts : Nat
  payload : Option Props
  deriving Repr

/-- Database.createCollection (database.py lines 95-134): the local
pre-validation of createCollectionPayload, then one POST whose response
is accepted exactly when the status is 200 and the error flag is unset,
registering the new handle under the name read back from the response;
any other response raises a CreationError and registers nothing. -/
def createCollection (reg : List CollectionClass) (dbName : String)
    (cols : List (String × ColObj)) (className : String) (caller : Props)
    (resp : ServerResp) : CCOutcome :=
  match createCollectionPayload reg dbName cols className caller with
  | Except.error e => ⟨Except.error e, cols, 0, none⟩
  | Except.ok p =>
      if resp.status = 200 ∧ resp.error = false then
        ⟨Except.ok resp.name,
         dinsert cols resp.name (ColObj.created className resp.name), 1, some p⟩
      else
        ⟨Except.error (CCErr.creationErrorServer resp.errorMessage), cols, 1, some p⟩

/-- Modelled from the spec: COL.isCollection (collection.py is not under
src/) holds of the names of known, already-existing collection types; the
known names are passed as the list kc. -/
def isCollection (kc : List String) (name : String) : Bool :=
  kc.contains name

/-- Modelled from the spec: COL.isEdgeCollection holds of the names of
known collection types that are edge collections; those names are passed
as the list ke. -/
def isEdgeCollection (ke : List String) (name : String) : Bool :=
  ke.contains name

/-- The helper checkCollectionList of Database.createGraph (database.py
lines 146-149): the first name of the list that is not a known
collection, the one whose ValueError is raised. -/
def checkCollectionList (kc : List String) (lst : List String) : Option String :=
  lst.find? (fun n => !(isCollection kc n))

/-- The edge-definition loop of Database.createGraph (database.py lines
154-158): for each definition in order, the edge collection must be a
known edge collection, then every from endpoint and every to endpoint
must be a known collection; returns the name whose check fails first. -/
def checkEdgeDefs (kc ke : List String) : List EdgeDefinition → Option String
  | [] => none
  | e :: rest =>
      if !(isEdgeCollection ke e.edgesCollection) then some e.edgesCollection
      else
        match checkCollectionList kc e.fromCollections with
        | some c => some c
        | none =>
            match checkCollectionList kc e.toCollections with
            | some c => some c
            | none => checkEdgeDefs kc ke rest

/-- The whole local validation of Database.createGraph (edge definitions,
then the orphaned collections of line 162): the name of the collection
whose check fails first, if any. -/
def createGraphCheck (kc ke : List String) (g : GraphClass) : Option String :=
  match checkEdgeDefs kc ke g.edgeDefinitions with
  | some c => some c
  | none => checkCollectionList kc g.orphanedCollections

/-- The errors Database.createGraph can raise: the KeyError of the graph
class lookup, the ValueError naming the collection that failed
validation, and the CreationError built from a failed server
response. -/
inductive CGErr where
  | keyError
  | valueError (collectionName : String)
  | creationError (msg : String)
  deriving DecidableEq, Repr

/-- The full outcome of a createGraph call: the raised error or the name
of the registered graph, the graphs registry afterwards, and the number
of POST requests sent. -/
structure CGOutcome where
  result : Except CGErr String
  graphs : List (String × GraphObj)
  posts : Nat
  deriving Repr

/-- Database.createGraph (database.py lines 141-191): resolves the graph
class, runs the local validation (raising a ValueError that names the
failing collection before any network call), then sends one POST whose
response is accepted exactly on status 201 or 202, registering the new
graph handle under the given name; any other status raises a
CreationError and registers nothing.  The payload assembly of lines
164-182 only shapes the POST body and never changes the control flow, so
the body itself is not carried here. -/
def createGraph (gReg : List (String × GraphClass)) (kc ke : List String)
    (graphs : List (String × GraphObj)) (name : String) (resp : ServerResp) :
    CGOutcome :=
  match getGraphClass gReg name with
  | none => ⟨Except.error CGErr.keyError, graphs, 0⟩
  | some g =>
      match createGraphCheck kc ke g with
      | some c => ⟨Except.error (CGErr.valueError c), graphs, 0⟩
      | none =>
          if resp.status = 201 ∨ resp.status = 202 then
            ⟨Except.ok name,
             dinsert graphs name (GraphObj.createdGraph name), 1⟩
          else
            ⟨Except.error (CGErr.creationError resp.errorMessage), graphs, 1⟩

/-- The errors an indexed lookup database[name] can surface: the
UpdateError of a failing reload, or the KeyError of line 274 when the
name is still absent after the reload. -/
inductive LookupErr where
  | updateError (msg : String)
  | notFound (name : String)
  deriving DecidableEq, Repr

/-- Database.getitem, written in the source as the bracket operator
(database.py lines 265-274): the local mapping first; on a miss one
reload and one retry, and a KeyError naming the collection when the name
is still absent.  The Nat component counts the reload calls made. -/
def getitem (reg : List CollectionClass) (gReg : List (String × GraphClass))
    (st : DBState) (cResp : ListResp) (gResp : GraphsResp) (name : String) :
    Except LookupErr ColObj × DBState × Nat :=
  match dlookup st.collections name with
  | some h => (Except.ok h, st, 0)
  | none =>
      match reload reg gReg st cResp gResp with
      | (Except.error e, st2, _) => (Except.error (LookupErr.updateError e), st2, 1)
      | (Except.ok _, st2, _) =>
          match dlookup st2.collections name with
          | some h => (Except.ok h, st2, 1)
          | none => (Except.error (LookupErr.notFound name), st2, 1)

/-- A delete request issued by dropAllCollections, on either a graph
handle or a collection handle. -/
inductive DeleteCall where
  | graph (name : String)
  | collection (name : String)
  deriving DecidableEq, Repr

/-- The test collection_name.startswith of database.py line 207 on the
one-character system marker: whether the first character of the name is
the underscore. -/
def startsWithUnderscore (s : String) : Bool :=
  match s.data with
  | [] => false
  | c :: _ => c = '_'

/-- The collection loop of Database.dropAllCollections (database.py lines
205-208): iterates the collection names, skips the system ones (name
starting with the underscore marker), and fetches each remaining handle
through the indexed lookup before calling delete on it.  Returns the
delete calls issued, the state afterwards, and the number of reload calls
made by the indexed lookups; a lookup failure would propagate as an
exception, aborting the remaining deletes. -/
def dropLoop (reg : List CollectionClass) (gReg : List (String × GraphClass))
    (st : DBState) (cResp : ListResp) (gResp : GraphsResp) :
    List String → List DeleteCall × DBState × Nat
  | [] => ([], st, 0)
  | c :: rest =>
      if startsWithUnderscore c then dropLoop reg gReg st cResp gResp rest
      else
        match getitem reg gReg st cResp gResp c with
        | (Except.ok _, st2, n) =>
            let tail := dropLoop reg gReg st2 cResp gResp rest
            (DeleteCall.collection c :: tail.1, tail.2.1, n + tail.2.2)
        | (Except.error _, st2, n) => ([], st2, n)

/-- Database.dropAllCollections (database.py lines 201-209): delete every
known graph by direct dictionary access, then every non-system collection
through the indexed lookup; no reload is performed afterwards. -/
def dropAllCollections (reg : List CollectionClass)
    (gReg : List (String × GraphClass)) (st : DBState) (cResp : ListResp)
    (gResp : GraphsResp) : List DeleteCall × DBState × Nat :=
  let graphDels := st.graphs.map (fun p => DeleteCall.graph p.1)
  let colPart := dropLoop reg gReg st cResp gResp (st.collections.map Prod.fst)
  (graphDels ++ colPart.1, colPart.2.1, colPart.2.2)

/-- The attribute names bound on a Database instance by Database.init
(database.py lines 18-28): name, connection and the two registries. -/
def databaseInstanceAttrs : List String :=
  ["name", "connection", "collections", "graphs"]

/-- The method names the class body of Database defines with a
well-formed def statement (database.py lines 30-274, dunder methods kept
aside as protocol slots).  Two names are conspicuously absent: line 36
reads "def getCursorsURL()(self)", which is not a valid def statement (a
syntax error, under which the whole module fails to import), so no method
named getCursorsURL ever exists; and no method named geTransactionURL is
defined anywhere although line 251 calls self.geTransactionURL(). -/
def databaseClassAttrs : List String :=
  ["getURL", "getCollectionsURL", "getExplainURL", "getGraphsURL",
   "getTransactionURL", "reloadCollections", "reloadGraphs", "reload",
   "createCollection", "fetchDocument", "createGraph", "hasCollection",
   "hasGraph", "dropAllCollections", "AQLQuery", "explainAQLQuery",
   "validateAQLQuery", "transaction"]

/-- Whether attribute lookup on a fully-initialized Database instance
finds the given name (instance attributes or class attributes). -/
def databaseHasAttr (k : String) : Bool :=
  databaseInstanceAttrs.contains k || databaseClassAttrs.contains k

/-- The decoded body of a POST response as the transaction and
validateAQLQuery code reads it: the HTTP status, the truthiness of the
error entry (an absent entry counts as false, matching data.get), and
the errorMessage used on failure. -/
structure PostResp where
  status : Nat
  error : Bool
  errorMessage : String
  deriving DecidableEq, Repr

/-- What a transaction call can produce: the decoded response on
success, a TransactionError carrying the message and the action, or the
AttributeError of a failed method lookup. -/
inductive TxResult where
  | success (resp : PostResp)
  | transactionError (msg : String) (action : String)
  | attributeError (attrName : String)
  deriving DecidableEq, Repr

/-- Database.transaction (database.py lines 238-260): line 251 resolves
self.geTransactionURL before the POST can be sent, so the call only
reaches the network when that attribute exists; afterwards a status of
200, 201 or 202 with the error flag unset returns the decoded response
and anything else raises a TransactionError with the errorMessage and
the action.  The Nat component counts the POST requests sent. -/
def transaction (action : String) (resp : PostResp) : TxResult × Nat :=
  if databaseHasAttr "geTransactionURL" then
    ((if (resp.status = 200 ∨ resp.status = 201 ∨ resp.status = 202) ∧ resp.error = false
      then TxResult.success resp
      else TxResult.transactionError resp.errorMessage action), 1)
  else (TxResult.attributeError "geTransactionURL", 0)

/-- What a validateAQLQuery call can produce: the decoded response on
success, an AQLQueryError carrying the message and the original query,
or the AttributeError of a failed method lookup. -/
inductive VResult where
  | success (resp : PostResp)
  | queryError (msg : String) (query : String)
  | attributeError (attrName : String)
  deriving DecidableEq, Repr

/-- Database.validateAQLQuery (database.py lines 224-236): line 231
resolves self.getCursorsURL before the POST can be sent, so the call
only reaches the network when that attribute exists (it never does, the
def of line 36 being malformed); afterwards status 201 with the error
flag unset returns the decoded response and anything else raises an
AQLQueryError carrying the errorMessage and the original query.  The Nat
component counts the POST requests sent. -/
def validateAQLQuery (query : String) (resp : PostResp) : VResult × Nat :=
  if databaseHasAttr "getCursorsURL" then
    ((if resp.status = 201 ∧ resp.error = false
      then VResult.success resp
      else VResult.queryError resp.errorMessage query), 1)
  else (VResult.attributeError "getCursorsURL", 0)

/-- The attribute names a bare DBHandle instance holds (database.py
lines 278-280): only connection and name until the first upgrade. -/
def dbHandleBaseAttrs : List String := ["name", "connection"]

/-- Whether default attribute lookup (instance dictionary, then class
attributes inherited from Database) succeeds on a DBHandle, depending on
whether the lazy upgrade has already run. -/
def handleLookupOk (inited : Bool) (k : String) : Bool :=
  databaseClassAttrs.contains k ||
    (if inited then databaseInstanceAttrs else dbHandleBaseAttrs).contains k

/-- The result of one attribute access. -/
inductive AttrResult where
  | found (k : String)
  | attributeError (k : String)
  deriving DecidableEq, Repr

/-- One attribute access on a DBHandle (database.py lines 282-286 plus
the Python attribute protocol): when default lookup succeeds nothing else
happens; when it fails, the getattr fallback of line 282 runs
Database.init on the instance (the full eager initialization, counted by
the Nat component) and then retries the lookup, whose failure surfaces as
an AttributeError. -/
def handleAccess (inited : Bool) (k : String) : AttrResult × Bool × Nat :=
  if handleLookupOk inited k then (AttrResult.found k, inited, 0)
  else
    ((if handleLookupOk true k then AttrResult.found k else AttrResult.attributeError k),
     true, 1)

/-- A sequence of attribute accesses on one DBHandle instance, returning
the access results, the final upgrade flag and the total number of times
the eager initialization ran. -/
def handleRun (inited : Bool) : List String → List AttrResult × Bool × Nat
  | [] => ([], inited, 0)
  | k :: ks =>
      let s := handleAccess inited k
      let rest := handleRun s.2.1 ks
      (s.1 :: rest.1, rest.2.1, s.2.2 + rest.2.2)

/-- One attribute access on a fully-initialized Database instance. -/
def databaseAccess (k : String) : AttrResult :=
  if databaseHasAttr k then AttrResult.found k else AttrResult.attributeError k

/-- Modelled from the spec: the two-state lazy proxy the spec describes
in sections 4.2 and 9 — Unloaded holds only connection and name and
serves them directly, any other access upgrades the instance to Loaded
exactly once and then every access delegates to the Database. -/
def specHandleAccess (loaded : Bool) (k : String) : AttrResult × Bool × Nat :=
  if loaded then (databaseAccess k, true, 0)
  else if dbHandleBaseAttrs.contains k then (AttrResult.found k, false, 0)
  else (databaseAccess k, true, 1)

/-- A sequence of attribute accesses on the spec-modelled lazy proxy. -/
def specHandleRun (loaded : Bool) : List String → List AttrResult × Bool × Nat
  | [] => ([], loaded, 0)
  | k :: ks =>
      let s := specHandleAccess loaded k
      let rest := specHandleRun s.2.1 ks
      (s.1 :: rest.1, rest.2.1, s.2.2 + rest.2.2)

/-- The last element of the listing result carrying a given name; under
the replace-in-place semantics of dict assignment this is the entry whose
handle the rebuilt registry keeps. -/
def lastDataFor : List ColData → String → Option ColData
  | [], _ => none
  | d :: rest, n =>
      match lastDataFor rest n with
      | some d' => some d'
      | none => if d.name = n then some d else none

/-- The check the createGraph validation applies to one tagged referenced
collection: edge-collection slots (tag true) must be known edge
collections, the others must be known collections. -/
def refPred (kc ke : List String) (p : Bool × String) : Bool :=
  if p.1 then !(isEdgeCollection ke p.2) else !(isCollection kc p.2)

/-- The collections one edge definition makes createGraph check, tagged
with the check applied, in the order the code visits them. -/
def edgeDefChecks (e : EdgeDefinition) : List (Bool × String) :=
  (true, e.edgesCollection)
    :: (e.fromCollections.map (fun c => ((false : Bool), c))
        ++ e.toCollections.map (fun c => ((false : Bool), c)))

/-- Every collection name a graph class references, tagged with the check
the code applies to it, in traversal order. -/
def referencedChecks (g : GraphClass) : List (Bool × String) :=
  (g.edgeDefinitions.map edgeDefChecks).flatten
    ++ g.orphanedCollections.map (fun c => ((false : Bool), c))

/-- The first referenced collection failing its check, in traversal
order. -/
def firstFailingRef (kc ke : List String) (g : GraphClass) : Option String :=
  ((referencedChecks g).find? (refPred kc ke)).map Prod.snd

/-- Following the claim wording exactly: every collection name referenced
by an edge definition (the edge collection itself and all from/to
endpoint collections) or declared as an orphan, in traversal order. -/
def referencedNames (g : GraphClass) : List String :=
  (g.edgeDefinitions.map (fun e =>
      e.edgesCollection :: (e.fromCollections ++ e.toCollections))).flatten
    ++ g.orphanedCollections

/-- Following the claim wording exactly: the first referenced collection
that is not a known collection type. -/
def claimFirstUnknown (kc : List String) (g : GraphClass) : Option String :=
  (referencedNames g).find? (fun n => !(isCollection kc n))

/-- The payload claim C1 describes for a named collection type: the
declared default properties merged with the caller-supplied properties,
caller values winning on keys present in both, with the name and type
fields then set as the code sets them. -/
def claimedMergePayload (colClass : CollectionClass) (className : String)
    (caller : Props) : Props :=
  let merged := caller.foldl (fun acc kv => dinsert acc kv.1 kv.2)
    (if colClass.hasProperties then colClass.properties else [])
  dinsert (dinsert merged "name" (JVal.str className)) "type"
    (JVal.num (if colClass.isEdge then COLLECTION_EDGE_TYPE
               else COLLECTION_DOCUMENT_TYPE))

theorem dlookup_dinsert {α : Type} (m : List (String × α)) (k k' : String) (v : α) :
    dlookup (dinsert m k v) k' = if k' = k then some v else dlookup m k' := by
  induction m with
  | nil =>
      by_cases h : k = k'
      · subst h; simp [dinsert, dlookup]
      · have h' : ¬ k' = k := fun he => h he.symm
        simp [dinsert, dlookup, h, h']
  | cons p rest ih =>
      obtain ⟨k₀, v₀⟩ := p
      by_cases h0 : k₀ = k
      · subst h0
        by_cases h : k₀ = k'
        · subst h; simp [dinsert, dlookup]
        · have h' : ¬ k' = k₀ := fun he => h he.symm
          simp [dinsert, dlookup, h, h']
      · by_cases h : k₀ = k'
        · subst h
          simp [dinsert, dlookup, h0]
        · simp [dinsert, dlookup, h0, h, ih]

theorem lastDataFor_isSome (l : List ColData) (n : String) :
    (lastDataFor l n).isSome = true ↔ n ∈ l.map ColData.name := by
  induction l with
  | nil => simp [lastDataFor]
  | cons d rest ih =>
      simp only [lastDataFor, List.map_cons, List.mem_cons]
      cases hr : lastDataFor rest n with
      | some d' =>
          simp only [Option.isSome_some, true_iff]
          right
          exact ih.mp (by simp [hr])
      | none =>
          rw [hr] at ih
          simp only [Option.isSome_none, Bool.false_eq_true, iff_false] at ih
          by_cases h : d.name = n
          · simp [h]
          · have h' : ¬ n = d.name := fun he => h he.symm
            simp [h, h', ih]

theorem reloadFold_dlookup (reg : List CollectionClass) (l : List ColData)
    (n : String) : ∀ acc : List (String × ColObj) × List String,
    dlookup (l.foldl (reloadStep reg) acc).1 n
      = match lastDataFor l n with
        | some d => some (classifyCol reg d).1
        | none => dlookup acc.1 n := by
  induction l with
  | nil => intro acc; simp [lastDataFor]
  | cons d rest ih =>
      intro acc
      simp only [List.foldl_cons, lastDataFor]
      rw [ih]
      cases hr : lastDataFor rest n with
      | some d' => simp
      | none =>
          simp only [reloadStep, dlookup_dinsert]
          by_cases h : d.name = n
          · simp [h]
          · have h' : ¬ n = d.name := fun he => h he.symm
            simp [h, h']

theorem dlookup_isSome_of_mem_keys {α : Type} (m : List (String × α))
    (k : String) (h : k ∈ m.map Prod.fst) : (dlookup m k).isSome = true := by
  induction m with
  | nil => simp at h
  | cons p rest ih =>
      obtain ⟨k₀, v₀⟩ := p
      simp only [List.map_cons, List.mem_cons] at h
      by_cases he : k₀ = k
      · simp [dlookup, he]
      · have h' : k ∈ rest.map Prod.fst := by
          rcases h with h | h
          · exact absurd h.symm he
          · exact h
        simp [dlookup, he, ih h']

theorem dlookup_some_pos {α : Type} (m : List (String × α)) (k : String)
    (v : α) (h : dlookup m k = some v) : 0 < m.length := by
  cases m with
  | nil => simp [dlookup] at h
  | cons p rest => simp

theorem find?_append {α : Type} (p : α → Bool) (l₁ l₂ : List α) :
    (l₁ ++ l₂).find? p
      = match l₁.find? p with
        | some x => some x
        | none => l₂.find? p := by
  induction l₁ with
  | nil => simp
  | cons a l ih =>
      by_cases h : p a = true
      · simp [List.find?, h]
      · simp only [Bool.not_eq_true] at h
        simp [List.find?, h, ih]

theorem find?_map {α β : Type} (f : α → β) (p : β → Bool) (l : List α) :
    (l.map f).find? p = (l.find? (fun a => p (f a))).map f := by
  induction l with
  | nil => simp
  | cons a l ih =>
      by_cases h : p (f a) = true
      · simp [List.find?, h]
      · simp only [Bool.not_eq_true] at h
        simp [List.find?, h, ih]

theorem base_attrs_sub (k : String) (h : k ∈ dbHandleBaseAttrs) :
    k ∈ databaseInstanceAttrs := by
  have h' : k = "name" ∨ k = "connection" := by simpa [dbHandleBaseAttrs] using h
  simp only [databaseInstanceAttrs, List.mem_cons, List.not_mem_nil, or_false]
  tauto

theorem hasAttr_of_class (k : String) (h : k ∈ databaseClassAttrs) :
    databaseHasAttr k = true := by
  simp [databaseHasAttr]
  tauto

theorem hasAttr_of_instance (k : String) (h : k ∈ databaseInstanceAttrs) :
    databaseHasAttr k = true := by
  simp [databaseHasAttr]
  tauto

theorem handleLookupOk_true_eq (k : String) :
    handleLookupOk true k = databaseHasAttr k := by
  simp [handleLookupOk, databaseHasAttr, Bool.or_comm]

theorem handleAccess_fst (inited : Bool) (k : String) :
    (handleAccess inited k).1 = databaseAccess k := by
  cases inited with
  | true =>
      simp only [handleAccess, handleLookupOk_true_eq, databaseAccess]
      by_cases h : databaseHasAttr k = true
      · simp [h]
      · simp only [Bool.not_eq_true] at h
        simp [h]
  | false =>
      simp only [handleAccess]
      by_cases h : handleLookupOk false k = true
      · have hd : databaseHasAttr k = true := by
          have h2 := h
          simp [handleLookupOk] at h2
          rcases h2 with h2 | h2
          · exact hasAttr_of_class k h2
          · exact hasAttr_of_instance k (base_attrs_sub k h2)
        simp [h, databaseAccess, hd]
      · simp only [Bool.not_eq_true] at h
        simp only [h, Bool.false_eq_true, if_false, handleLookupOk_true_eq,
          databaseAccess]

theorem handleAccess_inited_true (k : String) :
    (handleAccess true k).2.1 = true := by
  simp only [handleAccess]
  by_cases h : handleLookupOk true k = true
  · simp [h]
  · simp only [Bool.not_eq_true] at h
    simp [h]

theorem handleRun_inits_zero (ks : List String)
    (h : ∀ k ∈ ks, databaseHasAttr k = true) :
    (handleRun true ks).2.2 = 0 := by
  induction ks with
  | nil => simp [handleRun]
  | cons k ks ih =>
      have hk : databaseHasAttr k = true := h k (by simp)
      have hok : handleLookupOk true k = true := by
        rw [handleLookupOk_true_eq]; exact hk
      simp only [handleRun, handleAccess, hok, if_true]
      simpa using ih (fun k' hk' => h k' (List.mem_cons_of_mem _ hk'))

theorem handleRun_results (ks : List String) : ∀ inited : Bool,
    (handleRun inited ks).1 = ks.map databaseAccess := by
  induction ks with
  | nil => intro inited; simp [handleRun]
  | cons k ks ih =>
      intro inited
      simp only [handleRun, List.map_cons]
      rw [handleAccess_fst, ih]

theorem specHandleAccess_fst (loaded : Bool) (k : String) :
    (specHandleAccess loaded k).1 = databaseAccess k := by
  cases loaded with
  | true => simp [specHandleAccess]
  | false =>
      simp only [specHandleAccess]
      by_cases h : k ∈ dbHandleBaseAttrs
      · have hd : databaseHasAttr k = true :=
          hasAttr_of_instance k (base_attrs_sub k h)
        simp [h, databaseAccess, hd]
      · simp [h]

theorem specHandleRun_results (ks : List String) : ∀ loaded : Bool,
    (specHandleRun loaded ks).1 = ks.map databaseAccess := by
  induction ks with
  | nil => intro loaded; simp [specHandleRun]
  | cons k ks ih =>
      intro loaded
      simp only [specHandleRun, List.map_cons]
      rw [specHandleAccess_fst, ih]

theorem checkCollectionList_as_find (kc ke : List String) (lst : List String) :
    ((lst.map (fun c => ((false : Bool), c))).find? (refPred kc ke)).map Prod.snd
      = checkCollectionList kc lst := by
  induction lst with
  | nil => simp [checkCollectionList]
  | cons c l ih =>
      by_cases h : isCollection kc c = true
      · simp [List.find?_cons, refPred, checkCollectionList, h, ih,
          checkCollectionList] at ih ⊢
        rw [← ih]
      · simp only [Bool.not_eq_true] at h
        simp [List.find?_cons, refPred, checkCollectionList, h]

theorem checkEdgeDefs_as_find (kc ke : List String) :
    ∀ eds : List EdgeDefinition,
    (((eds.map edgeDefChecks).flatten).find? (refPred kc ke)).map Prod.snd
      = checkEdgeDefs kc ke eds := by
  intro eds
  induction eds with
  | nil => simp [checkEdgeDefs]
  | cons e rest ih =>
      simp only [List.map_cons, List.flatten_cons, edgeDefChecks,
        List.cons_append, List.find?_cons]
      by_cases hec : isEdgeCollection ke e.edgesCollection = true
      · have hp : refPred kc ke (true, e.edgesCollection) = false := by
          simp [refPred, hec]
        rw [hp]
        simp only [Bool.false_eq_true, if_false, List.append_assoc, find?_append]
        have hcf := checkCollectionList_as_find kc ke e.fromCollections
        have hct := checkCollectionList_as_find kc ke e.toCollections
        cases hf : (e.fromCollections.map (fun c => ((false : Bool), c))).find?
            (refPred kc ke) with
        | some x =>
            rw [hf] at hcf
            have hcf' : checkCollectionList kc e.fromCollections = some x.2 := by
              simpa using hcf.symm
            simp [checkEdgeDefs, hec, hcf']
        | none =>
            rw [hf] at hcf
            have hcf' : checkCollectionList kc e.fromCollections = none := by
              simpa using hcf.symm
            cases ht : (e.toCollections.map (fun c => ((false : Bool), c))).find?
                (refPred kc ke) with
            | some x =>
                rw [ht] at hct
                have hct' : checkCollectionList kc e.toCollections = some x.2 := by
                  simpa using hct.symm
                simp [checkEdgeDefs, hec, hcf', hct']
            | none =>
                rw [ht] at hct
                have hct' : checkCollectionList kc e.toCollections = none := by
                  simpa using hct.symm
                simp only [checkEdgeDefs, hec, Bool.not_true, Bool.false_eq_true,
                  if_false, hcf', hct']
                exact ih
      · simp only [Bool.not_eq_true] at hec
        have hp : refPred kc ke (true, e.edgesCollection) = true := by
          simp [refPred, hec]
        rw [hp]
        simp [checkEdgeDefs, hec]

theorem createGraphCheck_eq_firstFailingRef (kc ke : List String)
    (g : GraphClass) : createGraphCheck kc ke g = firstFailingRef kc ke g := by
  simp only [createGraphCheck, firstFailingRef, referencedChecks, find?_append]
  cases hj : ((g.edgeDefinitions.map edgeDefChecks).flatten).find? (refPred kc ke) with
  | some x =>
      have he := checkEdgeDefs_as_find kc ke g.edgeDefinitions
      rw [hj] at he
      simp [← he]
  | none =>
      have he := checkEdgeDefs_as_find kc ke g.edgeDefinitions
      rw [hj] at he
      have ho := checkCollectionList_as_find kc ke g.orphanedCollections
      simp [← he, ← ho]

theorem handleRun_false_inits_le_one (ks : List String)
    (h : ∀ k ∈ ks, databaseHasAttr k = true) :
    (handleRun false ks).2.2 ≤ 1 := by
  induction ks with
  | nil => simp [handleRun]
  | cons k ks ih =>
      by_cases hok : handleLookupOk false k = true
      · simp only [handleRun, handleAccess, hok, if_true]
        simpa using ih (fun k' hk' => h k' (List.mem_cons_of_mem _ hk'))
      · simp only [Bool.not_eq_true] at hok
        simp only [handleRun, handleAccess, hok, Bool.false_eq_true, if_false]
        have hz := handleRun_inits_zero ks
          (fun k' hk' => h k' (List.mem_cons_of_mem _ hk'))
        simp [hz]

/-- C1.  The claim says createCollection sends the declared defaults
merged with the caller properties (caller winning); the code instead
drops the defaults entirely whenever the caller supplies any property.
At a registered class K with default waitForSync=true and a caller
supplying only journalSize=1, the payload the code builds has no
waitForSync key, while the payload the claim describes has it. -/
theorem createCollection_defaults_discarded_cex :
    createCollectionPayload
        [⟨"K", false, true, [("waitForSync", JVal.bool true)]⟩]
        "testdb" [] "K" [("journalSize", JVal.num 1)]
      = Except.ok [("journalSize", JVal.num 1), ("name", JVal.str "K"),
          ("type", JVal.num 3)]
    ∧ claimedMergePayload ⟨"K", false, true, [("waitForSync", JVal.bool true)]⟩
        "K" [("journalSize", JVal.num 1)]
      = [("waitForSync", JVal.bool true), ("journalSize", JVal.num 1),
         ("name", JVal.str "K"), ("type", JVal.num 3)]
    ∧ dlookup [("journalSize", JVal.num 1), ("name", JVal.str "K"),
        ("type", JVal.num 3)] "waitForSync" = none := by
  exact ⟨rfl, rfl, rfl⟩

/-- C1 amended: when the caller supplies at least one property, the
payload createCollection builds is computed from the caller properties
alone — the declared default properties of the class are discarded, so
the result does not change when they are erased; the defaults are used
only when the caller supplies none. -/
theorem createCollection_caller_props_ignore_defaults :
    ∀ (dbName : String) (cols : List (String × ColObj)) (className : String)
      (c : CollectionClass) (caller : Props),
    0 < caller.length →
    createCollectionPayloadOfClass dbName cols className c caller
      = createCollectionPayloadOfClass dbName cols className
          ⟨c.name, c.isEdge, false, []⟩ caller := by
  intro dbName cols className c caller h
  simp [createCollectionPayloadOfClass, h]

/-- Witness for the amended C1 at a concrete input. -/
theorem createCollection_caller_props_ignore_defaults_witness :
    0 < ([("journalSize", JVal.num 1)] : Props).length
    ∧ createCollectionPayloadOfClass "testdb" [] "K"
        ⟨"K", false, true, [("waitForSync", JVal.bool true)]⟩
        [("journalSize", JVal.num 1)]
      = createCollectionPayloadOfClass "testdb" [] "K"
        ⟨"K", false, false, []⟩ [("journalSize", JVal.num 1)] :=
  ⟨by decide,
   createCollection_caller_props_ignore_defaults "testdb" [] "K"
     ⟨"K", false, true, [("waitForSync", JVal.bool true)]⟩
     [("journalSize", JVal.num 1)] (by decide)⟩

/-- C6.  transaction never reaches the status/error-flag decision the
claim describes: line 251 calls self.geTransactionURL(), a name the class
never defines (line 45 defines getTransactionURL), so every call raises
an AttributeError before any POST is sent. -/
theorem transaction_attribute_error :
    (∀ (action : String) (resp : PostResp),
        transaction action resp = (TxResult.attributeError "geTransactionURL", 0))
    ∧ databaseHasAttr "geTransactionURL" = false
    ∧ databaseHasAttr "getTransactionURL" = true := by
  refine ⟨?_, by decide, by decide⟩
  intro action resp
  have h : databaseHasAttr "geTransactionURL" = false := by decide
  simp [transaction, h]

/-- C7.  validateAQLQuery never reaches the status-201 decision the claim
describes: the definition of getCursorsURL at line 36 is malformed (the
module cannot even be imported), so no such method exists and the lookup
of line 231 raises an AttributeError before any POST is sent. -/
theorem validateAQLQuery_attribute_error :
    (∀ (query : String) (resp : PostResp),
        validateAQLQuery query resp = (VResult.attributeError "getCursorsURL", 0))
    ∧ databaseHasAttr "getCursorsURL" = false := by
  refine ⟨?_, by decide⟩
  intro query resp
  have h : databaseHasAttr "getCursorsURL" = false := by decide
  simp [validateAQLQuery, h]

/-- C9.  The claim says the eager initialization runs at most once per
DBHandle instance; but an access to an attribute the Database does not
define re-runs Database.init on every occurrence, so two accesses to the
undefined name foo initialize twice, while the two-state proxy of the
spec initializes once. -/
theorem dbhandle_reinit_cex :
    (handleRun false ["foo", "foo"]).2.2 = 2
    ∧ ¬ ((handleRun false ["foo", "foo"]).2.2 ≤ 1)
    ∧ (specHandleRun false ["foo", "foo"]).2.2 = 1 := by
  decide

/-- C9 amended: a DBHandle holds only connection and name until the
first access default lookup cannot satisfy, which runs the full eager
initialization; every attribute access produces the same result as on a
fully-initialized Database (and as on the two-state proxy of the spec),
and when every accessed name is one the Database defines the
initialization runs at most once per instance; only accesses to names
the Database does not define re-run it. -/
theorem dbhandle_lazy_refinement :
    ∀ ks : List String,
    (handleRun false ks).1 = ks.map databaseAccess
    ∧ (handleRun false ks).1 = (specHandleRun false ks).1
    ∧ ((∀ k ∈ ks, databaseHasAttr k = true) → (handleRun false ks).2.2 ≤ 1) := by
  intro ks
  refine ⟨handleRun_results ks false, ?_, ?_⟩
  · rw [handleRun_results, specHandleRun_results]
  · intro h
    exact handleRun_false_inits_le_one ks h

/-- Witness for the amended C9 at a concrete access trace. -/
theorem dbhandle_lazy_refinement_witness :
    (handleRun false ["collections", "getURL"]).1
        = (["collections", "getURL"] : List String).map databaseAccess
    ∧ (∀ k ∈ (["collections", "getURL"] : List String), databaseHasAttr k = true)
    ∧ (handleRun false ["collections", "getURL"]).2.2 ≤ 1 := by
  have h := dbhandle_lazy_refinement ["collections", "getURL"]
  exact ⟨h.1, by decide, h.2.2 (by decide)⟩

/-- C5.  The claim says the validation error names the first referenced
collection that is not a known collection type; but the edge-collection
slot is checked against the known edge collections, so with D a known
document collection used as the edge collection and X an unknown
endpoint, the first referenced collection that is not a known collection
type is X while the raised error names D. -/
theorem createGraph_first_offender_cex :
    (createGraph [("G", ⟨[⟨"D", ["X"], []⟩], []⟩)] ["D"] [] [] "G"
        ⟨200, false, "boom", "n"⟩).result
      = Except.error (CGErr.valueError "D")
    ∧ (createGraph [("G", ⟨[⟨"D", ["X"], []⟩], []⟩)] ["D"] [] [] "G"
        ⟨200, false, "boom", "n"⟩).posts = 0
    ∧ claimFirstUnknown ["D"] ⟨[⟨"D", ["X"], []⟩], []⟩ = some "X"
    ∧ isCollection ["D"] "D" = true
    ∧ ¬ ("D" = "X") := by
  exact ⟨rfl, rfl, rfl, rfl, by decide⟩

/-- C5 amended: the edge-collection slot of each edge definition must be
a known edge-collection type while from/to endpoints and orphan
collections must be known collection types; when any referenced
collection fails its respective check, createGraph raises a validation
error naming the first collection failing its check in traversal order
and issues no network call, leaving the graphs registry unchanged. -/
theorem createGraph_validation_first_failure :
    ∀ (gReg : List (String × GraphClass)) (kc ke : List String)
      (graphs : List (String × GraphObj)) (name : String) (resp : ServerResp)
      (g : GraphClass) (c : String),
    getGraphClass gReg name = some g →
    firstFailingRef kc ke g = some c →
    (createGraph gReg kc ke graphs name resp).result
        = Except.error (CGErr.valueError c)
    ∧ (createGraph gReg kc ke graphs name resp).graphs = graphs
    ∧ (createGraph gReg kc ke graphs name resp).posts = 0 := by
  intro gReg kc ke graphs name resp g c hg hff
  have hchk : createGraphCheck kc ke g = some c := by
    rw [createGraphCheck_eq_firstFailingRef]
    exact hff
  refine ⟨?_, ?_, ?_⟩ <;> simp [createGraph, hg, hchk]

/-- Witness for the amended C5 at a concrete input. -/
theorem createGraph_validation_first_failure_witness :
    firstFailingRef [] ["E"] ⟨[⟨"E", ["Y"], []⟩], []⟩ = some "Y"
    ∧ (createGraph [("H", ⟨[⟨"E", ["Y"], []⟩], []⟩)] [] ["E"] [] "H"
        ⟨201, false, "", "n"⟩).result = Except.error (CGErr.valueError "Y")
    ∧ (createGraph [("H", ⟨[⟨"E", ["Y"], []⟩], []⟩)] [] ["E"] [] "H"
        ⟨201, false, "", "n"⟩).posts = 0 := by
  have h := createGraph_validation_first_failure
    [("H", ⟨[⟨"E", ["Y"], []⟩], []⟩)] [] ["E"] [] "H" ⟨201, false, "", "n"⟩
    ⟨[⟨"E", ["Y"], []⟩], []⟩ "Y" rfl rfl
  exact ⟨rfl, h.1, h.2.2⟩

/-- C4.  createCollection raises its local pre-validation errors before
any POST: a generic class name with no name property raises the
ValueError of line 115, and a name already present in the local registry
raises the CreationError of line 118; in every such case the outcome is
independent of the server response, no POST is sent and nothing is
registered. -/
theorem createCollection_prevalidation_no_post :
    ∀ (reg : List CollectionClass) (dbName : String)
      (cols : List (String × ColObj)) (className : String) (caller : Props)
      (resp : ServerResp) (c : CollectionClass),
    getCollectionClass reg className = some c →
    ( (className = "Collection" ∨ className = "Edges") →
      dlookup caller "name" = none →
      (c.hasProperties = true → dlookup c.properties "name" = none) →
      createCollection reg dbName cols className caller resp
        = ⟨Except.error (CCErr.valueError
            "a 'name' argument mush be supplied if you want to create a generic collection"),
           cols, 0, none⟩ )
    ∧ ( className ≠ "Collection" → className ≠ "Edges" →
      (dlookup cols className).isSome = true →
      createCollection reg dbName cols className caller resp
        = ⟨Except.error (CCErr.creationErrorLocal
            ("Database " ++ dbName ++ " already has a collection named " ++ className)),
           cols, 0, none⟩ )
    ∧ ( (className = "Collection" ∨ className = "Edges") →
      ∀ nm : String, dlookup caller "name" = some (JVal.str nm) →
      (dlookup cols nm).isSome = true →
      createCollection reg dbName cols className caller resp
        = ⟨Except.error (CCErr.creationErrorLocal
            ("Database " ++ dbName ++ " already has a collection named " ++ nm)),
           cols, 0, none⟩ ) := by
  intro reg dbName cols className caller resp c hc
  refine ⟨?_, ?_, ?_⟩
  · intro hgen hcal hdef
    have hgen' : ¬ (className ≠ "Collection" ∧ className ≠ "Edges") := by
      rcases hgen with h | h <;> simp [h]
    have hprops : dlookup (if 0 < caller.length then caller
        else if c.hasProperties then c.properties else []) "name" = none := by
      by_cases hl : 0 < caller.length
      · simp [hl, hcal]
      · by_cases hp : c.hasProperties = true
        · simp [hl, hp, hdef hp]
        · simp only [Bool.not_eq_true] at hp
          simp [hl, hp, dlookup]
    simp [createCollection, createCollectionPayload, hc,
      createCollectionPayloadOfClass, hgen', hprops]
  · intro h1 h2 hmem
    have hgen' : className ≠ "Collection" ∧ className ≠ "Edges" := ⟨h1, h2⟩
    simp [createCollection, createCollectionPayload, hc,
      createCollectionPayloadOfClass, hgen', dlookup_dinsert, hmem]
  · intro hgen nm hcal hmem
    have hgen' : ¬ (className ≠ "Collection" ∧ className ≠ "Edges") := by
      rcases hgen with h | h <;> simp [h]
    have hl : 0 < caller.length := dlookup_some_pos caller "name" _ hcal
    simp [createCollection, createCollectionPayload, hc,
      createCollectionPayloadOfClass, hgen', hl, hcal, hmem]

/-- Witness for C4: both pre-validation errors hit at concrete inputs
with a server response that would otherwise have succeeded. -/
theorem createCollection_prevalidation_no_post_witness :
    getCollectionClass [⟨"Collection", false, false, []⟩] "Collection"
        = some ⟨"Collection", false, false, []⟩
    ∧ createCollection [⟨"Collection", false, false, []⟩] "testdb"
        [("a", ColObj.created "Collection" "a")] "Collection" [] ⟨200, false, "", "a"⟩
      = ⟨Except.error (CCErr.valueError
          "a 'name' argument mush be supplied if you want to create a generic collection"),
         [("a", ColObj.created "Collection" "a")], 0, none⟩ := by
  have h := createCollection_prevalidation_no_post
    [⟨"Collection", false, false, []⟩] "testdb"
    [("a", ColObj.created "Collection" "a")] "Collection" [] ⟨200, false, "", "a"⟩
    ⟨"Collection", false, false, []⟩ rfl
  exact ⟨rfl, h.1 (Or.inl rfl) rfl (fun _ => rfl)⟩

/-- C2.  Indexed lookup database[name]: a locally present name is
returned with no reload; a locally absent name triggers exactly one
reload and one retry — returning the handle when the name is present
after the reload and raising the not-found KeyError when it is still
absent — and never a second reload. -/
theorem getitem_reload_once :
    ∀ (reg : List CollectionClass) (gReg : List (String × GraphClass))
      (st : DBState) (cResp : ListResp) (gResp : GraphsResp) (name : String),
    (∀ h, dlookup st.collections name = some h →
        getitem reg gReg st cResp gResp name = (Except.ok h, st, 0))
    ∧ (dlookup st.collections name = none →
        (getitem reg gReg st cResp gResp name).2.2 = 1
        ∧ ((reload reg gReg st cResp gResp).1 = Except.ok () →
            (∀ h, dlookup (reload reg gReg st cResp gResp).2.1.collections name
                    = some h →
                (getitem reg gReg st cResp gResp name).1 = Except.ok h)
            ∧ (dlookup (reload reg gReg st cResp gResp).2.1.collections name
                    = none →
                (getitem reg gReg st cResp gResp name).1
                  = Except.error (LookupErr.notFound name)))) := by
  intro reg gReg st cResp gResp name
  constructor
  · intro h hh
    simp [getitem, hh]
  · intro hn
    rcases hr : reload reg gReg st cResp gResp with ⟨res, st2, w⟩
    cases res with
    | error e =>
        have hgi : getitem reg gReg st cResp gResp name
            = (Except.error (LookupErr.updateError e), st2, 1) := by
          simp [getitem, hn, hr]
        refine ⟨by simp [hgi], ?_⟩
        intro hok
        simp at hok
    | ok u =>
        cases u
        cases hl2 : dlookup st2.collections name with
        | some h2 =>
            have hgi : getitem reg gReg st cResp gResp name
                = (Except.ok h2, st2, 1) := by
              simp [getitem, hn, hr, hl2]
            refine ⟨by simp [hgi], ?_⟩
            intro _
            constructor
            · intro h hh
              cases hh
              simp [hgi]
            · intro hnone
              cases hnone
        | none =>
            have hgi : getitem reg gReg st cResp gResp name
                = (Except.error (LookupErr.notFound name), st2, 1) := by
              simp [getitem, hn, hr, hl2]
            refine ⟨by simp [hgi], ?_⟩
            intro _
            constructor
            · intro h hh
              cases hh
            · intro _
              simp [hgi]

/-- Witness for C2: a local miss resolved by the single reload. -/
theorem getitem_reload_once_witness :
    dlookup ([("a", ColObj.created "x" "a")] : List (String × ColObj)) "b" = none
    ∧ (getitem [] [] ⟨[("a", ColObj.created "x" "a")], []⟩
        ⟨200, [⟨"b", false, 3⟩], ""⟩ ⟨200, [], ""⟩ "b").2.2 = 1
    ∧ (getitem [] [] ⟨[("a", ColObj.created "x" "a")], []⟩
        ⟨200, [⟨"b", false, 3⟩], ""⟩ ⟨200, [], ""⟩ "b").1
      = Except.ok (ColObj.collectionGeneric ⟨"b", false, 3⟩) := by
  have h := getitem_reload_once [] [] ⟨[("a", ColObj.created "x" "a")], []⟩
    ⟨200, [⟨"b", false, 3⟩], ""⟩ ⟨200, [], ""⟩ "b"
  have h2 := h.2 rfl
  exact ⟨rfl, h2.1, (h2.2 rfl).1 (ColObj.collectionGeneric ⟨"b", false, 3⟩) rfl⟩

/-- C3.  After a successful reload (collections first, then graphs), a
name is a key of the collections registry exactly when it occurs in the
result array of the listing response; the handle stored under a name is
the classification of the last listed entry with that name, computed
from the isSystem/type fields with the registered-class lookup; and an
entry of unknown type never fails — it is classified as a generic
document collection with the warning flag set. -/
theorem reload_collections_exact :
    ∀ (reg : List CollectionClass) (gReg : List (String × GraphClass))
      (st : DBState) (cResp : ListResp) (gResp : GraphsResp),
    cResp.status = 200 → gResp.status = 200 →
    (reload reg gReg st cResp gResp).1 = Except.ok ()
    ∧ (∀ n, (dlookup (reload reg gReg st cResp gResp).2.1.collections n).isSome = true
          ↔ n ∈ cResp.result.map ColData.name)
    ∧ (∀ n, dlookup (reload reg gReg st cResp gResp).2.1.collections n
          = (lastDataFor cResp.result n).map (fun d => (classifyCol reg d).1))
    ∧ (∀ d : ColData, d.isSystem = false → getCollectionClass reg d.name = none →
        d.type ≠ COLLECTION_EDGE_TYPE → d.type ≠ COLLECTION_DOCUMENT_TYPE →
        classifyCol reg d = (ColObj.collectionGeneric d, true)) := by
  intro reg gReg st cResp gResp hc hg
  have hcoll : (reload reg gReg st cResp gResp).2.1.collections
      = (cResp.result.foldl (reloadStep reg) ([], [])).1 := by
    simp [reload, reloadCollections, reloadGraphs, hc, hg]
  have hok : (reload reg gReg st cResp gResp).1 = Except.ok () := by
    simp [reload, reloadCollections, reloadGraphs, hc, hg]
  refine ⟨hok, ?_, ?_, ?_⟩
  · intro n
    rw [hcoll, reloadFold_dlookup]
    cases hl : lastDataFor cResp.result n with
    | some d =>
        have hm := (lastDataFor_isSome cResp.result n).1 (by simp [hl])
        simp [hm]
    | none =>
        have hm : ¬ n ∈ cResp.result.map ColData.name := by
          intro hmem
          have h2 := (lastDataFor_isSome cResp.result n).2 hmem
          rw [hl] at h2
          simp at h2
        simp [dlookup, hm]
  · intro n
    rw [hcoll, reloadFold_dlookup]
    cases hl : lastDataFor cResp.result n with
    | some d => simp
    | none => simp [dlookup]
  · intro d h1 h2 h3 h4
    simp [classifyCol, h1, h2, h3, h4]

/-- Witness for C3 at a concrete listing holding a system collection, a
registered collection, a generic edge collection and one of unknown
type. -/
theorem reload_collections_exact_witness :
    (200 : Nat) = 200
    ∧ (reload [⟨"users", false, false, []⟩] [] ⟨[], []⟩
        ⟨200, [⟨"_sys", true, 3⟩, ⟨"users", false, 3⟩, ⟨"links", false, 2⟩,
               ⟨"odd", false, 7⟩], ""⟩ ⟨200, [], ""⟩).1 = Except.ok ()
    ∧ ((dlookup (reload [⟨"users", false, false, []⟩] [] ⟨[], []⟩
        ⟨200, [⟨"_sys", true, 3⟩, ⟨"users", false, 3⟩, ⟨"links", false, 2⟩,
               ⟨"odd", false, 7⟩], ""⟩ ⟨200, [], ""⟩).2.1.collections "odd").isSome
          = true
        ↔ "odd" ∈ ([⟨"_sys", true, 3⟩, ⟨"users", false, 3⟩, ⟨"links", false, 2⟩,
               ⟨"odd", false, 7⟩] : List ColData).map ColData.name)
    ∧ classifyCol [⟨"users", false, false, []⟩] ⟨"odd", false, 7⟩
        = (ColObj.collectionGeneric ⟨"odd", false, 7⟩, true) := by
  have h := reload_collections_exact [⟨"users", false, false, []⟩] [] ⟨[], []⟩
    ⟨200, [⟨"_sys", true, 3⟩, ⟨"users", false, 3⟩, ⟨"links", false, 2⟩,
           ⟨"odd", false, 7⟩], ""⟩ ⟨200, [], ""⟩ rfl rfl
  exact ⟨rfl, h.1, h.2.1 "odd",
    h.2.2.2 ⟨"odd", false, 7⟩ rfl rfl (by decide) (by decide)⟩

theorem count_graph_map (g : String) (l : List String) :
    (l.map DeleteCall.graph).count (DeleteCall.graph g) = l.count g :=
  List.count_map_of_injective l DeleteCall.graph
    (fun a b h => by injection h) g

theorem count_collection_map (c : String) (l : List String) :
    (l.map DeleteCall.collection).count (DeleteCall.collection c) = l.count c :=
  List.count_map_of_injective l DeleteCall.collection
    (fun a b h => by injection h) c

theorem count_collection_in_graphmap (c : String) (l : List String) :
    (l.map DeleteCall.graph).count (DeleteCall.collection c) = 0 := by
  rw [List.count_eq_zero]
  intro hmem
  simp [List.mem_map] at hmem

theorem count_graph_in_collectionmap (g : String) (l : List String) :
    (l.map DeleteCall.collection).count (DeleteCall.graph g) = 0 := by
  rw [List.count_eq_zero]
  intro hmem
  simp [List.mem_map] at hmem

theorem map_graph_fst (l : List (String × GraphObj)) :
    l.map (fun p => DeleteCall.graph p.1)
      = (l.map Prod.fst).map DeleteCall.graph := by
  induction l with
  | nil => rfl
  | cons p rest ih => simp [ih]

theorem dropLoop_all_present :
    ∀ (reg : List CollectionClass) (gReg : List (String × GraphClass))
      (st : DBState) (cResp : ListResp) (gResp : GraphsResp)
      (names : List String),
    (∀ c ∈ names, (dlookup st.collections c).isSome = true) →
    dropLoop reg gReg st cResp gResp names
      = ((names.filter (fun c => !(startsWithUnderscore c))).map DeleteCall.collection,
         st, 0) := by
  intro reg gReg st cResp gResp names
  induction names with
  | nil => intro _; simp [dropLoop]
  | cons c rest ih =>
      intro h
      have hc := h c (by simp)
      obtain ⟨v, hv⟩ := Option.isSome_iff_exists.1 hc
      have hrest := ih (fun c' hc' => h c' (List.mem_cons_of_mem _ hc'))
      by_cases hs : startsWithUnderscore c = true
      · simp [dropLoop, hs, hrest, List.filter_cons]
      · simp only [Bool.not_eq_true] at hs
        simp [dropLoop, hs, getitem, hv, hrest, List.filter_cons]

/-- C8.  dropAllCollections sends one delete for every graph of the
graphs registry, one delete for every collection whose name does not
start with the system underscore, no delete for any name that does, and
performs no reload at any point. -/
theorem dropAllCollections_deletes_once :
    ∀ (reg : List CollectionClass) (gReg : List (String × GraphClass))
      (st : DBState) (cResp : ListResp) (gResp : GraphsResp),
    (st.collections.map Prod.fst).Nodup →
    (st.graphs.map Prod.fst).Nodup →
    (∀ g ∈ st.graphs.map Prod.fst,
        (dropAllCollections reg gReg st cResp gResp).1.count
          (DeleteCall.graph g) = 1)
    ∧ (∀ c ∈ st.collections.map Prod.fst, startsWithUnderscore c = false →
        (dropAllCollections reg gReg st cResp gResp).1.count
          (DeleteCall.collection c) = 1)
    ∧ (∀ c : String, startsWithUnderscore c = true →
        (dropAllCollections reg gReg st cResp gResp).1.count
          (DeleteCall.collection c) = 0)
    ∧ (dropAllCollections reg gReg st cResp gResp).2.2 = 0 := by
  intro reg gReg st cResp gResp hnc hng
  have hall : ∀ c ∈ st.collections.map Prod.fst,
      (dlookup st.collections c).isSome = true :=
    fun c hc => dlookup_isSome_of_mem_keys st.collections c hc
  have hdrop := dropLoop_all_present reg gReg st cResp gResp
    (st.collections.map Prod.fst) hall
  have hda : dropAllCollections reg gReg st cResp gResp
      = (st.graphs.map (fun p => DeleteCall.graph p.1)
          ++ (((st.collections.map Prod.fst).filter
                (fun c => !(startsWithUnderscore c))).map DeleteCall.collection),
         st, 0) := by
    simp [dropAllCollections, hdrop]
  refine ⟨?_, ?_, ?_, ?_⟩
  · intro g hgmem
    rw [hda]
    simp only [List.count_append, map_graph_fst, count_graph_map,
      count_graph_in_collectionmap]
    simp [List.count_eq_one_of_mem hng hgmem]
  · intro c hcmem hcs
    rw [hda]
    simp only [List.count_append, map_graph_fst, count_collection_map,
      count_collection_in_graphmap]
    have hmem : c ∈ (st.collections.map Prod.fst).filter
        (fun c => !(startsWithUnderscore c)) :=
      List.mem_filter.2 ⟨hcmem, by simp [hcs]⟩
    simp [List.count_eq_one_of_mem (hnc.filter _) hmem]
  · intro c hcs
    rw [hda]
    simp only [List.count_append, map_graph_fst, count_collection_map,
      count_collection_in_graphmap]
    have hnot : ¬ c ∈ (st.collections.map Prod.fst).filter
        (fun c => !(startsWithUnderscore c)) := by
      intro hmem
      have := (List.mem_filter.1 hmem).2
      simp [hcs] at this
    simp [List.count_eq_zero.2 hnot]
  · rw [hda]

/-- Witness for C8 at a registry holding one graph, one ordinary
collection and one system collection. -/
theorem dropAllCollections_deletes_once_witness :
    (dropAllCollections [] [] ⟨[("_sys", ColObj.created "x" "_sys"),
        ("a", ColObj.created "x" "a")], [("g", GraphObj.createdGraph "g")]⟩
      ⟨500, [], "e"⟩ ⟨500, [], "e"⟩).1.count (DeleteCall.graph "g") = 1
    ∧ (dropAllCollections [] [] ⟨[("_sys", ColObj.created "x" "_sys"),
        ("a", ColObj.created "x" "a")], [("g", GraphObj.createdGraph "g")]⟩
      ⟨500, [], "e"⟩ ⟨500, [], "e"⟩).1.count (DeleteCall.collection "a") = 1
    ∧ (dropAllCollections [] [] ⟨[("_sys", ColObj.created "x" "_sys"),
        ("a", ColObj.created "x" "a")], [("g", GraphObj.createdGraph "g")]⟩
      ⟨500, [], "e"⟩ ⟨500, [], "e"⟩).1.count (DeleteCall.collection "_sys") = 0
    ∧ (dropAllCollections [] [] ⟨[("_sys", ColObj.created "x" "_sys"),
        ("a", ColObj.created "x" "a")], [("g", GraphObj.createdGraph "g")]⟩
      ⟨500, [], "e"⟩ ⟨500, [], "e"⟩).2.2 = 0 := by
  have h := dropAllCollections_deletes_once [] []
    ⟨[("_sys", ColObj.created "x" "_sys"), ("a", ColObj.created "x" "a")],
     [("g", GraphObj.createdGraph "g")]⟩
    ⟨500, [], "e"⟩ ⟨500, [], "e"⟩ (by decide) (by decide)
  exact ⟨h.1 "g" (by decide), h.2.1 "a" (by decide) (by decide),
    h.2.2.1 "_sys" (by decide), h.2.2.2⟩

/-- C10.  Every error path leaves the registries untouched:
reloadCollections and reloadGraphs on a non-200 status return the old
mapping unchanged, createCollection on a failed server response (or any
pre-validation error) registers nothing, and createGraph on a status
other than 201/202 registers nothing. -/
theorem error_paths_leave_registries_unchanged :
    ∀ (reg : List CollectionClass) (gReg : List (String × GraphClass))
      (dbName className gname : String) (caller : Props)
      (cols old : List (String × ColObj))
      (graphs oldG : List (String × GraphObj))
      (cResp : ListResp) (gResp : GraphsResp) (resp : ServerResp)
      (kc ke : List String),
    (cResp.status ≠ 200 →
        reloadCollections reg old cResp
          = (Except.error cResp.errorMessage, old, []))
    ∧ (gResp.status ≠ 200 →
        reloadGraphs gReg oldG gResp
          = (Except.error gResp.errorMessage, oldG))
    ∧ ((resp.status ≠ 200 ∨ resp.error = true) →
        (createCollection reg dbName cols className caller resp).collections
          = cols)
    ∧ (resp.status ≠ 201 → resp.status ≠ 202 →
        (createGraph gReg kc ke graphs gname resp).graphs = graphs) := by
  intro reg gReg dbName className gname caller cols old graphs oldG
    cResp gResp resp kc ke
  refine ⟨?_, ?_, ?_, ?_⟩
  · intro h
    simp [reloadCollections, h]
  · intro h
    simp [reloadGraphs, h]
  · intro h
    cases hp : createCollectionPayload reg dbName cols className caller with
    | error e => simp [createCollection, hp]
    | ok p =>
        have hcond : ¬ (resp.status = 200 ∧ resp.error = false) := by
          rcases h with h | h
          · intro hc
            exact h hc.1
          · intro hc
            rw [h] at hc
            exact absurd hc.2 (by simp)
        simp [createCollection, hp, hcond]
  · intro h1 h2
    cases hg : getGraphClass gReg gname with
    | none => simp [createGraph, hg]
    | some g =>
        cases hk : createGraphCheck kc ke g with
        | some cname => simp [createGraph, hg, hk]
        | none =>
            have hcond : ¬ (resp.status = 201 ∨ resp.status = 202) := by
              rintro (h | h)
              · exact h1 h
              · exact h2 h
            simp [createGraph, hg, hk, hcond]

/-- Witness for C10: a 500 listing response, a rejected collection
creation and a rejected graph creation, none of which touch the
registries. -/
theorem error_paths_leave_registries_unchanged_witness :
    reloadCollections [⟨"K", false, false, []⟩]
        [("a", ColObj.created "x" "a")] ⟨500, [], "boom"⟩
      = (Except.error "boom", [("a", ColObj.created "x" "a")], [])
    ∧ reloadGraphs [("H", ⟨[], []⟩)] [("g", GraphObj.createdGraph "g")]
        ⟨500, [], "boom"⟩
      = (Except.error "boom", [("g", GraphObj.createdGraph "g")])
    ∧ (createCollection [⟨"K", false, false, []⟩] "testdb" [] "K" []
        ⟨403, true, "denied", ""⟩).collections = []
    ∧ (createGraph [("H", ⟨[], []⟩)] [] [] [] "H"
        ⟨403, true, "denied", ""⟩).graphs = [] := by
  have h := error_paths_leave_registries_unchanged
    [⟨"K", false, false, []⟩] [("H", ⟨[], []⟩)] "testdb" "K" "H" []
    [] [("a", ColObj.created "x" "a")] [] [("g", GraphObj.createdGraph "g")]
    ⟨500, [], "boom"⟩ ⟨500, [], "boom"⟩ ⟨403, true, "denied", ""⟩ [] []
  exact ⟨h.1 (by decide), h.2.1 (by decide), h.2.2.1 (Or.inl (by decide)),
    h.2.2.2 (by decide) (by decide)⟩

end PyArango
